import Mathlib

/-!
Shallow embedding of the Shelly cover wall-switch control scripts.

The repository holds script variants sharing the same structure:
a cover-state guard (`handleCoverAction`), an event router registered with
`Shelly.addEventHandler` that scans a declarative `eventActions` table,
a virtual-component provisioner (`initVirtualComponents`), and an HTTP
remote-trigger helper (`triggerButtonEvent`).

Side effects are made observable: every `Shelly.call` turns into a
`Command` value, and the embedded functions return the list of commands
(and, where needed, log lines) they would issue, in order.
-/

/-- One `Shelly.call` made by the scripts, with the parameters it carries.
`coverGoToPosition` keeps both optional fields of the `Cover.GoToPosition`
parameter object so that omission of a field is observable. -/
inductive Command where
  | coverStop (id : Int)
  | coverOpen (id : Int)
  | coverClose (id : Int)
  | coverGoToPosition (id : Int) (pos : Option Int) (slat_pos : Option Int)
  | httpGet (url : String)
  | virtualDelete (key : String)
  | virtualAdd (vtype : String) (name : String)
  deriving DecidableEq, Repr

/-- The cover status object returned by `Shelly.getComponentStatus("cover", id)`:
only the fields the scripts read. `slat_pos` is `none` when the field is
absent (`undefined` in the source). -/
structure CoverStatus where
  state : String
  slat_pos : Option Int
  deriving DecidableEq, Repr

/-- `coverIsMoving(status)` from the scripts. -/
def coverIsMoving (status : CoverStatus) : Bool :=
  status.state == "opening" || status.state == "closing" || status.state == "calibrating"

/-- `coverStop()`: issues `Cover.Stop` for the configured cover. -/
def coverStop (coverId : Int) : List Command :=
  [Command.coverStop coverId]

/-- `coverOpen()`: issues `Cover.Open` for the configured cover. -/
def coverOpen (coverId : Int) : List Command :=
  [Command.coverOpen coverId]

/-- `coverClose()`: issues `Cover.Close` for the configured cover. -/
def coverClose (coverId : Int) : List Command :=
  [Command.coverClose coverId]

/-- `coverGoToPosition(coverPosition)`: issues `Cover.GoToPosition` with the
given parameter object. -/
def coverGoToPosition (id : Int) (pos : Option Int) (slat_pos : Option Int) : List Command :=
  [Command.coverGoToPosition id pos slat_pos]

/-- `coverSetSlatPosition(position)`: the parameter object holds only the cover
id and `slat_pos`; the `pos` field is omitted. -/
def coverSetSlatPosition (coverId : Int) (position : Int) : List Command :=
  coverGoToPosition coverId none (some position)

/-- `handleCoverAction(action)` of the slat-supporting variant. `status?` is
the result of `Shelly.getComponentStatus("cover", CONFIG.coverId)`; `none`
models a falsy status (the error-log-and-return path). Returns the commands
issued. -/
def handleCoverAction (coverId : Int) (action : String) (status? : Option CoverStatus) :
    List Command :=
  match status? with
  | none => []
  | some status =>
    if coverIsMoving status then
      coverStop coverId
    else if action = "slat_open" ∨ action = "slat_close" then
      let currentSlatPos : Int := status.slat_pos.getD 50
      let adjustment : Int := if action = "slat_open" then 25 else -25
      let newSlatPos : Int := min 100 (max 0 (currentSlatPos + adjustment))
      if newSlatPos ≠ currentSlatPos then coverSetSlatPosition coverId newSlatPos else []
    else
      match action with
      | "open" => if status.state ≠ "open" then coverOpen coverId else []
      | "close" => if status.state ≠ "close" then coverClose coverId else []
      | _ => []

/-- `isOpenButtonPressed(event)` from ShellyCoverWallSwitch4ControlScript.js;
the argument is `event.info.component`. -/
def isOpenButtonPressed (component : String) : Bool :=
  component == "bthomesensor:201" || component == "bthomesensor:203"

/-- `isCloseButtonPressed(event)` from ShellyCoverWallSwitch4ControlScript.js;
the argument is `event.info.component`. -/
def isCloseButtonPressed (component : String) : Bool :=
  component == "bthomesensor:202" || component == "bthomesensor:204"

/-- The event handler body of ShellyCoverWallSwitch4ControlScript.js (that file
hardcodes `CONFIG.coverId = 0`): branches on which button the event's
`info.component` designates and applies the inline guard. -/
def wallSwitchHandler (component : String) (status : CoverStatus) : List Command :=
  if isOpenButtonPressed component then
    if coverIsMoving status then coverStop 0
    else if status.state ≠ "open" then coverOpen 0
    else []
  else if isCloseButtonPressed component then
    if coverIsMoving status then coverStop 0
    else if status.state ≠ "close" then coverClose 0
    else []
  else []

/-! ## Event routing -/

/-- The wildcard event type: `const EVENT_ALL = "all"`. -/
def EVENT_ALL : String := "all"

/-- The fields of an inbound event that the router consults:
`event.component` and `event.info.event`. -/
structure InboundEvent where
  component : String
  eventType : String
  deriving DecidableEq, Repr

/-- One entry of `CONFIG.eventActions`. The inline closure is abstracted to a
value of type `α`: a label when only firing order matters, an
`Except String Unit` when the action's possible exception matters. -/
structure EventActionEntry (α : Type) where
  component : String
  event : String
  action : α
  deriving Repr

/-- The match condition of the dispatch loop:
`event.component === eac.component && (event.info.event === eac.event || eac.event === EVENT_ALL)`. -/
def eventActionMatches (e : InboundEvent) (eac : EventActionEntry α) : Bool :=
  e.component == eac.component && (e.eventType == eac.event || eac.event == EVENT_ALL)

/-- The `CONFIG.eventActions.forEach` loop of `initEventActions`. The `return`
inside the forEach callback only ends that callback, so the loop visits every
entry; this function returns the actions invoked, in declaration order. -/
def dispatchFired (table : List (EventActionEntry α)) (e : InboundEvent) : List α :=
  table.filterMap fun eac => if eventActionMatches e eac then some eac.action else none

/-- The source-family filter at the top of the registered handler:
`event.component.indexOf("bthomesensor:") === 0 || ... "bthomedevice:" ... || ... "button:" ...`. -/
def relevantComponent (component : String) : Bool :=
  "bthomesensor:".data.isPrefixOf component.data ||
    "bthomedevice:".data.isPrefixOf component.data ||
    "button:".data.isPrefixOf component.data

/-- The whole handler registered by `initEventActions`: irrelevant components
are dropped, then the dispatch loop runs. Returns the actions invoked. -/
def eventHandlerFired (table : List (EventActionEntry α)) (e : InboundEvent) : List α :=
  if !(relevantComponent e.component) then [] else dispatchFired table e

/-- Runs the invoked actions in order. An action that throws aborts the
`forEach` and the exception propagates (the handler body has no try/catch). -/
def runActions : List (Except String Unit) → Except String Unit
  | [] => Except.ok ()
  | Except.error msg :: _ => Except.error msg
  | Except.ok () :: rest => runActions rest

/-- The registered handler with throwing actions made explicit: the result is
`Except.error msg` exactly when some invoked action throws and the exception
escapes the handler. -/
def eventHandlerRun (table : List (EventActionEntry (Except String Unit)))
    (e : InboundEvent) : Except String Unit :=
  runActions (eventHandlerFired table e)

/-- The `bthomedevice:200` action of the slat-supporting variant: the switch on
`event.info.idx` selects the action passed to `handleCoverAction`; `none` means
no case matched, so the guard is not invoked at all. -/
def bthomedeviceAction (idx : Int) : Option String :=
  if idx = 0 then some "open"
  else if idx = 1 then some "close"
  else if idx = 2 then some "slat_open"
  else if idx = 3 then some "slat_close"
  else none

/-- The `bthomedevice:200` action of the second and third script variants: the
switch maps idx 2 and 3 to plain "open" and "close" (these variants have no
slat actions). -/
def bthomedeviceActionVariant3 (idx : Int) : Option String :=
  if idx = 0 then some "open"
  else if idx = 1 then some "close"
  else if idx = 2 then some "open"
  else if idx = 3 then some "close"
  else none

/-! ## Virtual component provisioning -/

/-- One entry of `CONFIG.virtualComponents`. -/
structure VirtualComponent where
  key : String
  name : String
  deriving DecidableEq, Repr

/-- Body of the `CONFIG.virtualComponents.forEach` callback in
`initVirtualComponents`. `store` models `Shelly.getComponentConfig`: it maps a
component key to the name of the existing component, or `none` when absent.
The component type passed to `Virtual.Add` is `config.key.split(":")[0]`. -/
def provisionComponent (store : String → Option String) (config : VirtualComponent) :
    List Command :=
  match store config.key with
  | none => [Command.virtualAdd ((config.key.splitOn ":").headD "") config.name]
  | some existingName =>
    if existingName ≠ config.name then
      [Command.virtualDelete config.key,
       Command.virtualAdd ((config.key.splitOn ":").headD "") config.name]
    else []

/-- `initVirtualComponents()`: reconciles each declared component against the
backing store, in declaration order, returning all mutating calls issued. -/
def initVirtualComponents (store : String → Option String) :
    List VirtualComponent → List Command
  | [] => []
  | config :: rest => provisionComponent store config ++ initVirtualComponents store rest

/-- The declared `CONFIG.virtualComponents` list shared by the script variants. -/
def virtualComponentsConfig : List VirtualComponent :=
  [⟨"button:200", "CoverAction Open"⟩, ⟨"button:201", "CoverAction Close"⟩]

/-! ## Remote trigger proxy -/

/-- JavaScript truthiness of a string-or-null argument: `null`/absent and the
empty string are falsy. -/
def truthyStr : Option String → Bool
  | none => false
  | some s => s ≠ ""

/-- JavaScript truthiness of a number-or-null argument: `null`/absent and the
number 0 are falsy. -/
def truthyNum : Option Int → Bool
  | none => false
  | some n => n ≠ 0

/-- `triggerButtonEvent(deviceIp, buttonId, event)`: validates the arguments by
truthiness, then issues one `HTTP.GET`. Returns the log lines printed and the
network calls made. -/
def triggerButtonEvent (deviceIp : Option String) (buttonId : Option Int)
    (event : Option String) : List String × List Command :=
  if !(truthyStr deviceIp) || !(truthyNum buttonId) || !(truthyStr event) then
    (["[ERROR] Missing arguments for triggerButtonEvent"], [])
  else
    let ip := deviceIp.getD ""
    let bid := buttonId.getD 0
    let ev := event.getD ""
    let url := "http://" ++ ip ++ "/rpc/Button.Trigger?id=" ++ toString bid ++ "&event=" ++ ev
    (["Triggering event: " ++ ev ++ " (Button: " ++ toString bid ++ ", Device: " ++ ip ++ ")"],
     [Command.httpGet url])

/-! ## Theorems -/

/-- C1: for every requested action and every cover status whose state is one of
opening, closing, or calibrating, one invocation of the guard
(`handleCoverAction`, and likewise the inline guard of the wall-switch handler
when a known button is pressed) issues exactly one stop command and no other
command. -/
theorem handleCoverAction_safetyFirstStop (coverId : Int) (action : String)
    (status : CoverStatus) (h : coverIsMoving status = true) :
    handleCoverAction coverId action (some status) = [Command.coverStop coverId] ∧
    ∀ component : String,
      (isOpenButtonPressed component || isCloseButtonPressed component) = true →
      wallSwitchHandler component status = [Command.coverStop 0] := by
  constructor
  · simp [handleCoverAction, h, coverStop]
  · intro component hc
    cases hob : isOpenButtonPressed component
    · cases hcb : isCloseButtonPressed component
      · simp [hob, hcb] at hc
      · simp [wallSwitchHandler, hob, hcb, h, coverStop]
    · simp [wallSwitchHandler, hob, h, coverStop]

/-- Witness for C1 at a concrete moving status and button. -/
theorem handleCoverAction_safetyFirstStop_witness :
    coverIsMoving ⟨"closing", none⟩ = true ∧
    handleCoverAction 0 "open" (some ⟨"closing", none⟩) = [Command.coverStop 0] ∧
    (isOpenButtonPressed "bthomesensor:201" || isCloseButtonPressed "bthomesensor:201") = true ∧
    wallSwitchHandler "bthomesensor:201" ⟨"closing", none⟩ = [Command.coverStop 0] :=
  ⟨by decide,
   (handleCoverAction_safetyFirstStop 0 "open" ⟨"closing", none⟩ (by decide)).1,
   by decide,
   (handleCoverAction_safetyFirstStop 0 "open" ⟨"closing", none⟩ (by decide)).2
     "bthomesensor:201" (by decide)⟩

/-- C4: on a non-moving status, `handle(open)` issues an open command iff the
state differs from "open", `handle(close)` a close command iff the state
differs from "close", and nothing at all in the already-satisfied case. -/
theorem handleCoverAction_openClose (coverId : Int) (status : CoverStatus)
    (h : coverIsMoving status = false) :
    handleCoverAction coverId "open" (some status) =
      (if status.state ≠ "open" then [Command.coverOpen coverId] else []) ∧
    handleCoverAction coverId "close" (some status) =
      (if status.state ≠ "close" then [Command.coverClose coverId] else []) := by
  constructor <;> simp [handleCoverAction, h, coverOpen, coverClose]

/-- Witness for C4 at a concrete idle status. -/
theorem handleCoverAction_openClose_witness :
    coverIsMoving ⟨"close", none⟩ = false ∧
    handleCoverAction 0 "open" (some ⟨"close", none⟩) =
      (if ("close" : String) ≠ "open" then [Command.coverOpen 0] else []) ∧
    handleCoverAction 0 "close" (some ⟨"close", none⟩) =
      (if ("close" : String) ≠ "close" then [Command.coverClose 0] else []) :=
  ⟨by decide,
   (handleCoverAction_openClose 0 ⟨"close", none⟩ (by decide)).1,
   (handleCoverAction_openClose 0 ⟨"close", none⟩ (by decide)).2⟩

/-- C6: on a non-moving status, a slat action reads the current slat position
(defaulting to 50 when absent), applies the fixed ±25 adjustment, clamps the
result to [0, 100], and issues exactly one go-to-position command iff the
clamped value differs from the current one; in particular slat_open from 90
issues slat position 100, and slat_open from 100 issues nothing. -/
theorem handleCoverAction_slatAdjustment :
    (∀ (coverId : Int) (action : String) (status : CoverStatus),
      coverIsMoving status = false → (action = "slat_open" ∨ action = "slat_close") →
      handleCoverAction coverId action (some status) =
        (let currentSlatPos : Int := status.slat_pos.getD 50
         let adjustment : Int := if action = "slat_open" then 25 else -25
         let newSlatPos : Int := min 100 (max 0 (currentSlatPos + adjustment))
         if newSlatPos ≠ currentSlatPos
         then [Command.coverGoToPosition coverId none (some newSlatPos)] else [])) ∧
    handleCoverAction 0 "slat_open" (some ⟨"open", some 90⟩) =
      [Command.coverGoToPosition 0 none (some 100)] ∧
    handleCoverAction 0 "slat_open" (some ⟨"open", some 100⟩) = [] := by
  refine ⟨?_, by decide, by decide⟩
  intro coverId action status hm ha
  simp [handleCoverAction, hm, ha, coverSetSlatPosition, coverGoToPosition]

/-- Witness for C6 at a concrete non-moving status. -/
theorem handleCoverAction_slatAdjustment_witness :
    coverIsMoving ⟨"close", some 40⟩ = false ∧
    (("slat_close" : String) = "slat_open" ∨ ("slat_close" : String) = "slat_close") ∧
    handleCoverAction 0 "slat_close" (some ⟨"close", some 40⟩) =
      (let currentSlatPos : Int := (some (40 : Int)).getD 50
       let adjustment : Int := if ("slat_close" : String) = "slat_open" then 25 else -25
       let newSlatPos : Int := min 100 (max 0 (currentSlatPos + adjustment))
       if newSlatPos ≠ currentSlatPos
       then [Command.coverGoToPosition 0 none (some newSlatPos)] else []) :=
  ⟨by decide, Or.inr rfl,
   handleCoverAction_slatAdjustment.1 0 "slat_close" ⟨"close", some 40⟩ (by decide)
     (Or.inr rfl)⟩

/-- C7: every `Cover.GoToPosition` command issued by the guard carries the
configured cover id and a slat position, and its `pos` field is omitted. -/
theorem handleCoverAction_goToPosition_omitsPos (coverId : Int) (action : String)
    (status? : Option CoverStatus) (id : Int) (pos slat : Option Int)
    (h : Command.coverGoToPosition id pos slat ∈ handleCoverAction coverId action status?) :
    id = coverId ∧ pos = none ∧ ∃ v, slat = some v := by
  rcases status? with _ | status
  · simp [handleCoverAction] at h
  · simp only [handleCoverAction] at h
    split at h
    · simp [coverStop] at h
    · split at h
      · simp [coverSetSlatPosition, coverGoToPosition] at h
        exact ⟨h.2.1, h.2.2.1, _, h.2.2.2⟩
      · split at h
        · simp [coverOpen] at h
        · simp [coverClose] at h
        · simp at h

/-- Witness for C7 at a concrete slat command. -/
theorem handleCoverAction_goToPosition_omitsPos_witness :
    Command.coverGoToPosition 0 none (some 100) ∈
      handleCoverAction 0 "slat_open" (some ⟨"open", some 90⟩) ∧
    ((0 : Int) = 0 ∧ (none : Option Int) = none ∧ ∃ v, (some (100 : Int)) = some v) :=
  ⟨by decide,
   handleCoverAction_goToPosition_omitsPos 0 "slat_open" (some ⟨"open", some 90⟩) 0 none
     (some 100) (by decide)⟩

/-- Helper: when no entry of the table matches the event, the dispatch loop
invokes nothing. -/
theorem dispatchFired_eq_nil_of_noMatch {α : Type} (table : List (EventActionEntry α))
    (e : InboundEvent) (h : ∀ eac ∈ table, eventActionMatches e eac = false) :
    dispatchFired table e = [] := by
  induction table with
  | nil => rfl
  | cons a t ih =>
    have ha := h a (List.mem_cons_self a t)
    have ht : ∀ eac ∈ t, eventActionMatches e eac = false := fun eac hm =>
      h eac (List.mem_cons_of_mem a hm)
    simpa [dispatchFired, List.filterMap_cons, ha] using ih ht

/-- Helper: with pairwise-distinct entry components, at most one entry of the
dispatch loop matches, so at most one action is invoked. -/
theorem dispatchFired_length_le_one_of_nodup {α : Type} (table : List (EventActionEntry α))
    (e : InboundEvent) (h : (table.map fun eac => eac.component).Nodup) :
    (dispatchFired table e).length ≤ 1 := by
  revert h
  induction table with
  | nil => intro _; simp [dispatchFired]
  | cons a t ih =>
    intro h
    rw [List.map_cons, List.nodup_cons] at h
    obtain ⟨ha, ht⟩ := h
    by_cases hm : eventActionMatches e a = true
    · have hcomp : e.component = a.component := by
        have hm' := hm
        unfold eventActionMatches at hm'
        exact eq_of_beq ((Bool.and_eq_true _ _).mp hm').1
      have hrest : ∀ eac ∈ t, eventActionMatches e eac = false := by
        intro eac hmem
        have hne : a.component ≠ eac.component := fun hh =>
          ha (hh ▸ List.mem_map_of_mem (fun x => x.component) hmem)
        have hbeq : (e.component == eac.component) = false := by
          rw [hcomp]
          exact beq_eq_false_iff_ne.mpr hne
        unfold eventActionMatches
        rw [hbeq, Bool.false_and]
      have hnil := dispatchFired_eq_nil_of_noMatch t e hrest
      simp only [dispatchFired] at hnil
      simp [dispatchFired, List.filterMap_cons, hm, hnil]
    · have hm' : eventActionMatches e a = false := by simpa using hm
      simpa [dispatchFired, List.filterMap_cons, hm'] using ih ht

/-- C2 counterexample: with two entries for the same source — a specific event
type first, the wildcard second — an inbound event matching both fires BOTH
actions (labels 1 then 2): the `return` in the forEach callback does not stop
the scan after the first match. -/
theorem router_secondMatch_alsoFires :
    eventHandlerFired
      [⟨"button:200", "single_push", (1 : Nat)⟩, ⟨"button:200", "all", 2⟩]
      ⟨"button:200", "single_push"⟩ = [1, 2] := by decide

/-- C2 amended: the router invokes the action of every matching entry in
declaration order; only when the table's entries carry pairwise-distinct
component ids (as the shipped CONFIG tables do) does at most one entry fire
per inbound event. -/
theorem eventHandler_atMostOne_of_distinctComponents {α : Type}
    (table : List (EventActionEntry α)) (e : InboundEvent)
    (h : (table.map fun eac => eac.component).Nodup) :
    (eventHandlerFired table e).length ≤ 1 := by
  unfold eventHandlerFired
  split
  · simp
  · exact dispatchFired_length_le_one_of_nodup table e h

/-- Witness for the amended C2 on a concrete distinct-component table. -/
theorem eventHandler_atMostOne_witness :
    ((([⟨"button:200", "all", (0 : Nat)⟩, ⟨"button:201", "all", 1⟩,
        ⟨"bthomedevice:200", "all", 2⟩] :
        List (EventActionEntry Nat)).map fun eac => eac.component).Nodup) ∧
    (eventHandlerFired
      [⟨"button:200", "all", (0 : Nat)⟩, ⟨"button:201", "all", 1⟩,
        ⟨"bthomedevice:200", "all", 2⟩]
      ⟨"button:200", "single_push"⟩).length ≤ 1 :=
  ⟨by decide, eventHandler_atMostOne_of_distinctComponents _ _ (by decide)⟩

/-- C3 counterexample: the handler body has no try/catch, so an error thrown by
an invoked action escapes the event handler instead of being caught and
logged. -/
theorem router_actionError_escapes :
    eventHandlerRun [⟨"button:200", "all", Except.error "boom"⟩]
      ⟨"button:200", "single_push"⟩ = Except.error "boom" ∧
    eventHandlerRun [⟨"button:200", "all", Except.error "boom"⟩]
      ⟨"button:200", "single_push"⟩ ≠ Except.ok () :=
  ⟨rfl, fun hc => Except.noConfusion ((rfl : eventHandlerRun
    [⟨"button:200", "all", Except.error "boom"⟩] ⟨"button:200", "single_push"⟩ =
      Except.error "boom") ▸ hc)⟩

/-- C3 amended: an error thrown inside an invoked action is NOT caught at the
dispatch boundary — it propagates out of the event handler (the only try/catch
in the scripts guards the one-shot registration of the handler, not dispatch). -/
theorem router_error_propagates (e : InboundEvent) (msg : String)
    (rest : List (EventActionEntry (Except String Unit)))
    (h : relevantComponent e.component = true) :
    eventHandlerRun (⟨e.component, EVENT_ALL, Except.error msg⟩ :: rest) e =
      Except.error msg := by
  simp [eventHandlerRun, eventHandlerFired, h, dispatchFired, List.filterMap_cons,
    eventActionMatches, runActions]

/-- Witness for the amended C3 at a concrete event and throwing action. -/
theorem router_error_propagates_witness :
    relevantComponent "button:200" = true ∧
    eventHandlerRun [⟨"button:200", EVENT_ALL, Except.error "fail"⟩]
      ⟨"button:200", "single_push"⟩ = Except.error "fail" :=
  ⟨by decide, router_error_propagates ⟨"button:200", "single_push"⟩ "fail" [] (by decide)⟩

/-- C5 counterexample: in the third script variant (also cited by the claim),
the multi-button action at payload index 2 requests a plain open, not
slat_open. -/
theorem bthomedeviceVariant3_idx2_requestsOpen :
    bthomedeviceActionVariant3 2 = some "open" ∧
    bthomedeviceActionVariant3 2 ≠ some "slat_open" := by decide

/-- C5 amended: in the slat-supporting variant the payload index selects
open/close/slat_open/slat_close for 0/1/2/3; in the other variants index 2
requests open and index 3 requests close; in every variant an index outside
0..3 is ignored (no guard invocation). -/
theorem bthomedeviceAction_branching :
    (∀ idx : Int, ¬(0 ≤ idx ∧ idx ≤ 3) →
      bthomedeviceAction idx = none ∧ bthomedeviceActionVariant3 idx = none) ∧
    bthomedeviceAction 0 = some "open" ∧ bthomedeviceAction 1 = some "close" ∧
    bthomedeviceAction 2 = some "slat_open" ∧ bthomedeviceAction 3 = some "slat_close" ∧
    bthomedeviceActionVariant3 0 = some "open" ∧ bthomedeviceActionVariant3 1 = some "close" ∧
    bthomedeviceActionVariant3 2 = some "open" ∧ bthomedeviceActionVariant3 3 = some "close" := by
  refine ⟨?_, by decide, by decide, by decide, by decide, by decide, by decide, by decide,
    by decide⟩
  intro idx h
  constructor
  · simp only [bthomedeviceAction]
    rw [if_neg (by omega), if_neg (by omega), if_neg (by omega), if_neg (by omega)]
  · simp only [bthomedeviceActionVariant3]
    rw [if_neg (by omega), if_neg (by omega), if_neg (by omega), if_neg (by omega)]

/-- Witness for the amended C5 at the out-of-range index 5. -/
theorem bthomedeviceAction_branching_witness :
    ¬((0 : Int) ≤ 5 ∧ (5 : Int) ≤ 3) ∧
    (bthomedeviceAction 5 = none ∧ bthomedeviceActionVariant3 5 = none) :=
  ⟨by decide, bthomedeviceAction_branching.1 5 (by decide)⟩

/-- C8: when every declared virtual component already exists in the backing
store under its declared name — the state a successful first reconciliation
leaves behind — a further run of the provisioner issues no add and no delete
call. -/
theorem initVirtualComponents_idempotent (store : String → Option String)
    (comps : List VirtualComponent)
    (h : ∀ c ∈ comps, store c.key = some c.name) :
    initVirtualComponents store comps = [] := by
  revert h
  induction comps with
  | nil => intro _; rfl
  | cons c rest ih =>
    intro h
    have hc := h c (List.mem_cons_self c rest)
    have hrest : ∀ x ∈ rest, store x.key = some x.name := fun x hx =>
      h x (List.mem_cons_of_mem c hx)
    simp [initVirtualComponents, provisionComponent, hc, ih hrest]

/-- A backing store as left by a successful first run over the declared
`CONFIG.virtualComponents`. -/
def storeAfterFirstRun : String → Option String := fun key =>
  if key = "button:200" then some "CoverAction Open"
  else if key = "button:201" then some "CoverAction Close"
  else none

/-- Witness for C8 on the declared component list and the post-run store. -/
theorem initVirtualComponents_idempotent_witness :
    (∀ c ∈ virtualComponentsConfig, storeAfterFirstRun c.key = some c.name) ∧
    initVirtualComponents storeAfterFirstRun virtualComponentsConfig = [] :=
  ⟨by decide,
   initVirtualComponents_idempotent storeAfterFirstRun virtualComponentsConfig (by decide)⟩

/-- C9: when any of the three trigger arguments is missing (absent, or the
empty string), the function logs the missing-argument error and performs no
network call. -/
theorem triggerButtonEvent_missingArg (deviceIp : Option String) (buttonId : Option Int)
    (event : Option String)
    (h : deviceIp = none ∨ deviceIp = some "" ∨ buttonId = none ∨
      event = none ∨ event = some "") :
    triggerButtonEvent deviceIp buttonId event =
      (["[ERROR] Missing arguments for triggerButtonEvent"], []) := by
  rcases h with h | h | h | h | h <;> subst h <;>
    simp [triggerButtonEvent, truthyStr, truthyNum]

/-- Witness for C9: `triggerButtonEvent(null, 5, "single_push")`. -/
theorem triggerButtonEvent_missingArg_witness :
    ((none : Option String) = none ∨ (none : Option String) = some "" ∨
      (some (5 : Int) : Option Int) = none ∨ (some "single_push" : Option String) = none ∨
      (some "single_push" : Option String) = some "") ∧
    triggerButtonEvent none (some 5) (some "single_push") =
      (["[ERROR] Missing arguments for triggerButtonEvent"], []) :=
  ⟨Or.inl rfl, triggerButtonEvent_missingArg none (some 5) (some "single_push") (Or.inl rfl)⟩

/-- C10: because presence is tested by truthiness, button id 0 is rejected as a
missing argument for every device address and event type: the missing-argument
error is logged and no network call is made. -/
theorem triggerButtonEvent_zeroButtonId (deviceIp : Option String) (event : Option String) :
    triggerButtonEvent deviceIp (some 0) event =
      (["[ERROR] Missing arguments for triggerButtonEvent"], []) := by
  simp [triggerButtonEvent, truthyNum]
